import Mathlib

/-!
Shallow embedding of `laceworksdk/http_session.py` (class `HttpSession`).

Python runtime features are modelled explicitly:
  - `requests` responses become the `Response` structure; `response.json()`
    is carried as the field `jsonResult` (`none` = the body does not parse,
    i.e. `.json()` raises `ValueError`).
  - Python exceptions relevant to this module become the `PyExn` type;
    fallible code returns `Except PyExn _`.
  - `datetime` instants are integers (timezone-aware UTC timestamps);
    `datetime.now(timezone.utc)` becomes an explicit time argument `t`;
    `datetime.strptime` with the fixed format string is the environment
    function `Env.strptime` (`none` = `ValueError`).
  - Python attribute semantics are kept: `HttpSession` declares
    `_access_token = None` and `_access_token_expiry = None` at class level
    (lines 28-29); `self._access_token = v` creates an *instance* attribute
    that shadows the class attribute, and a read falls back to the class
    attribute when no instance attribute exists.  `Attrs` holds the two
    instance-dictionary slots (`none` = no instance attribute yet) and
    `ClassAttrs` the class-level values, which no code in the module ever
    assigns, so they stay at the declared defaults.
  - The network is a deterministic oracle in `Env`: `authResp n` is the
    outcome of the n-th POST to `/api/v2/access/tokens` made by this
    session, `send` the outcome of a resource request.
  - Constants imported from `laceworksdk.config` and `laceworksdk.version`
    (module not under `src/`) are fields of `Env`, left abstract exactly as
    the spec leaves them abstract: base domain string, default
    token-expiration seconds, success status-code allow-list, version.
-/

set_option autoImplicit false

/-- Decidable equality of `Except` results (core provides none). -/
instance {ε α : Type _} [DecidableEq ε] [DecidableEq α] :
    DecidableEq (Except ε α) := fun a b =>
  match a, b with
  | .ok x, .ok y =>
    if h : x = y then .isTrue (by rw [h])
    else .isFalse (fun c => by cases c; exact h rfl)
  | .error x, .error y =>
    if h : x = y then .isTrue (by rw [h])
    else .isFalse (fun c => by cases c; exact h rfl)
  | .ok _, .error _ => .isFalse (fun c => by cases c)
  | .error _, .ok _ => .isFalse (fun c => by cases c)

namespace LaceworkSDK

/-- JSON scalar value appearing in a response body field. -/
inductive JVal where
  | s (v : String)
  | n (v : Int)
deriving DecidableEq

/-- A flat JSON object, as returned by `response.json()` for the bodies this
module inspects: field name to value, where a `none` value encodes JSON
`null` (which Python decodes to `None`). -/
abbrev JObj := List (String × Option JVal)

/-- Model of a `requests` response: status code, the `Content-Type` header
(`headers.get("Content-Type")`), raw text body, and the result of
`response.json()` (`none` when the body fails to parse as JSON, in which
case `.json()` raises `ValueError`). -/
structure Response where
  status_code : Nat
  contentType : Option String
  text : String
  jsonResult : Option JObj
deriving DecidableEq

/-- Python exceptions that can escape the code of this module.
`apiError r` is `laceworksdk.exceptions.ApiError` carrying the full
response (module not under `src/`; modelled from the spec: "API Error:
carries the offending response (status, body) for caller inspection").
`nameError` is the `UnboundLocalError`/`NameError` raised when a local
variable is referenced before assignment; `transportError` stands for the
exceptions the `requests` library raises on network failure. -/
inductive PyExn where
  | apiError (r : Response)
  | nameError
  | typeError
  | valueError
  | keyError
  | transportError
deriving DecidableEq

/-- Outcome of one HTTP exchange performed by the underlying
`requests.Session`: either a response arrives, or the library raises a
transport exception. -/
inductive HttpResult where
  | ok (r : Response)
  | exn
deriving DecidableEq

/-- HTTP method of a dispatched resource request. -/
inductive Method where
  | GET
  | POST
  | PUT
  | PATCH
  | DELETE
deriving DecidableEq

/-- Log messages emitted by `_print_debug_logging`: a debug log of the
pretty-printed JSON body, a debug log of the raw text body, or the
warning "Error parsing JSON response body". -/
inductive LogMsg where
  | debugJson (j : JObj)
  | debugText (s : String)
  | warnParse
deriving DecidableEq

/-- Immutable per-instance fields set in `__init__` (lines 48-52):
api key, api secret, account and sub-account.  `subaccount = none` models
passing `None`. -/
structure Config where
  account : String
  subaccount : Option String
  api_key : String
  api_secret : String

/-- The environment: external collaborators of the session.  The
configuration constants come from `laceworksdk.config` and
`laceworksdk.version`, which are outside `src/` and whose values the spec
leaves abstract ("base domain string, default token-expiration seconds,
set of status codes treated as success"), so they are fields here.
`strptime` models `datetime.strptime` at the fixed format
`"%Y-%m-%dT%H:%M:%S.%f%z"` (`none` = `ValueError`); `authResp n` is the
response of the n-th POST this session makes to the token endpoint;
`send` dispatches a resource request (method, uri, headers, json data,
params). -/
structure Env where
  baseDomain : String
  successCodes : List Nat
  expirySeconds : Nat
  version : String
  strptime : String → Option Int
  authResp : Nat → HttpResult
  send : Method → String → JObj → Option JObj → Option JObj → HttpResult

/-- The class-level attributes of `HttpSession` (lines 28-29):
`_access_token = None`, `_access_token_expiry = None`.  No statement in
the module assigns to the class itself, so these stay at their declared
defaults. -/
structure ClassAttrs where
  tok : Option JVal
  exp : Option Int
deriving DecidableEq

/-- The declared class-level defaults: both attributes are `None`. -/
def classDefaults : ClassAttrs := ⟨none, none⟩

/-- The instance-dictionary slots of one `HttpSession` object for the two
mutable attributes.  `none` means the instance has no own attribute and a
read falls back to the class attribute; `some v` means
`self._access_token = v` (resp. expiry) has been executed, and `v` itself
is the stored Python value (`none` = Python `None`, e.g. when the server
returned JSON `null` for the token). -/
structure Attrs where
  tokSlot : Option (Option JVal)
  expSlot : Option (Option Int)
deriving DecidableEq

/-- Python attribute read of `self._access_token` against given class
attributes: instance slot if present, else the class attribute. -/
def Attrs.readTokIn (c : ClassAttrs) (a : Attrs) : Option JVal :=
  a.tokSlot.getD c.tok

/-- Python attribute read of `self._access_token_expiry` against given
class attributes. -/
def Attrs.readExpIn (c : ClassAttrs) (a : Attrs) : Option Int :=
  a.expSlot.getD c.exp

/-- Read of `self._access_token` with the class attributes at their
declared defaults (the only reachable class state, since nothing assigns
to the class). -/
def Attrs.readTok (a : Attrs) : Option JVal :=
  a.readTokIn classDefaults

/-- Read of `self._access_token_expiry` with the class attributes at their
declared defaults. -/
def Attrs.readExp (a : Attrs) : Option Int :=
  a.readExpIn classDefaults

/-- Mutable state of one session: the instance attribute slots, and the
number of POSTs made so far to the token endpoint (the index into
`Env.authResp`, used to count auth fetches). -/
structure World where
  attrs : Attrs
  authCalls : Nat
deriving DecidableEq

/-- The state of a freshly allocated `HttpSession` object at the start of
`__init__`: no instance attributes, no auth calls made. -/
def World.initial : World := ⟨⟨none, none⟩, 0⟩

/-- Lower-casing of one character, modelling Python's `str.lower` on the
ASCII range (content-type header values are ASCII). -/
def lowerChar (c : Char) : Char :=
  if 'A' ≤ c ∧ c ≤ 'Z' then Char.ofNat (c.toNat + 32) else c

/-- Lower-casing of a string, modelling Python's `str.lower`. -/
def lowerStr (s : String) : String :=
  String.mk (s.data.map lowerChar)

/-- Substring test, modelling Python's `needle in hay`. -/
def containsSub (needle hay : String) : Bool :=
  decide (needle.data <:+: hay.data)

/-- `_check_response_code` (lines 70-77): pass when
`response.status_code` is among the expected codes, otherwise
`raise ApiError(response)`. -/
def check_response_code (r : Response) (expected_response_codes : List Nat) :
    Except PyExn Unit :=
  if r.status_code ∈ expected_response_codes then .ok ()
  else .error (.apiError r)

/-- The `User-Agent` string `f"laceworksdk-python-client/{version}"`. -/
def userAgent (env : Env) : String :=
  "laceworksdk-python-client/" ++ env.version

/-- `_print_debug_logging` (lines 79-91): if
`"application/json" in response.headers.get("Content-Type", "").lower()`,
try to debug-log the parsed JSON and log a warning on `ValueError`;
otherwise debug-log the raw text.  It returns the emitted log messages
and never raises. -/
def print_debug_logging (r : Response) : Except PyExn (List LogMsg) :=
  if containsSub "application/json" (lowerStr (r.contentType.getD "")) then
    match r.jsonResult with
    | some j => .ok [.debugJson j]
    | none => .ok [.warnParse]
  else .ok [.debugText r.text]

/-- `_get_access_token` (lines 93-128): POST to
`f"{self._base_url}/api/v2/access/tokens"`, then inside
`try: ... except Exception: raise ApiError(response)` validate the status
code and debug-log.  If `self._session.post` itself raises, the local
`response` is unbound, so evaluating `ApiError(response)` in the except
clause raises `UnboundLocalError` (a `NameError`), which escapes.  If the
status check raises `ApiError(response)`, the except clause re-raises
`ApiError(response)` for the same bound response.  `_print_debug_logging`
never raises.  Exactly one POST is made per call (the counter always
advances by one). -/
def get_access_token (env : Env) (w : World) : Except PyExn Response × World :=
  let w' : World := { w with authCalls := w.authCalls + 1 }
  match env.authResp w.authCalls with
  | .exn => (.error .nameError, w')
  | .ok r =>
    match check_response_code r env.successCodes with
    | .error _ => (.error (.apiError r), w')
    | .ok _ =>
      match print_debug_logging r with
      | .error _ => (.error (.apiError r), w')
      | .ok _ => (.ok r, w')

/-- The refresh condition of `_check_access_token` (line 62):
`self._access_token is None or self._access_token_expiry < datetime.now(timezone.utc)`.
Python short-circuits `or`: when the token is `None` the comparison is
not evaluated; when the token is not `None` and the expiry is `None`,
comparing `None < datetime` raises `TypeError`. -/
def refreshCond (tok : Option JVal) (exp : Option Int) (t : Int) :
    Except PyExn Bool :=
  if tok = none then .ok true
  else
    match exp with
    | none => .error .typeError
    | some e => .ok (decide (e < t))

/-- Application of `datetime.strptime(value, "%Y-%m-%dT%H:%M:%S.%f%z")` to
the Python value decoded from a JSON field: a non-string (including
`None`) raises `TypeError`, an unparseable string raises `ValueError`. -/
def strptimeVal (env : Env) (v : Option JVal) : Except PyExn Int :=
  match v with
  | some (.s str) =>
    match env.strptime str with
    | some dt => .ok dt
    | none => .error .valueError
  | _ => .error .typeError

/-- `_check_access_token` (lines 57-68): when the refresh condition holds,
fetch a token, then execute the two assignments in source order:
`self._access_token_expiry = datetime.strptime(response.json()["expiresAt"], ...)`
first, `self._access_token = response.json()["token"]` second.  There is
no `try`/`except` here, so any exception from the fetch or from the
parsing (missing key = `KeyError`, unparseable body = `ValueError`, ...)
propagates to the caller — and an exception between the two assignments
leaves the expiry updated while the token slot is untouched. -/
def check_access_token (env : Env) (t : Int) (w : World) :
    Except PyExn Unit × World :=
  match refreshCond w.attrs.readTok w.attrs.readExp t with
  | .error e => (.error e, w)
  | .ok false => (.ok (), w)
  | .ok true =>
    match get_access_token env w with
    | (.error e, w') => (.error e, w')
    | (.ok r, w') =>
      match r.jsonResult with
      | none => (.error .valueError, w')
      | some j =>
        match List.lookup "expiresAt" j with
        | none => (.error .keyError, w')
        | some v =>
          match strptimeVal env v with
          | .error e => (.error e, w')
          | .ok dt =>
            let w2 : World := { w' with attrs := { w'.attrs with expSlot := some (some dt) } }
            match List.lookup "token" j with
            | none => (.error .keyError, w2)
            | some tv => (.ok (), { w2 with attrs := { w2.attrs with tokSlot := some tv } })

/-- `_get_request_headers` (lines 130-147): builds
`{"Authorization": self._access_token, "Org-Access": "true"|"false",
"User-Agent": f"laceworksdk-python-client/{version}"}` and appends
`"Account-Name": self._subaccount` when `if self._subaccount:` is truthy
(i.e. the sub-account is neither `None` nor the empty string). -/
def get_request_headers (env : Env) (cfg : Config) (tok : Option JVal)
    (org_access : Bool) : JObj :=
  let headers : JObj :=
    [("Authorization", tok),
     ("Org-Access", some (.s (if org_access then "true" else "false"))),
     ("User-Agent", some (.s (userAgent env)))]
  match cfg.subaccount with
  | some s => if s = "" then headers else headers ++ [("Account-Name", some (.s s))]
  | none => headers

/-- The base URL built in `__init__` (line 51):
`f"https://{account}.{DEFAULT_BASE_DOMAIN}"`. -/
def base_url (env : Env) (cfg : Config) : String :=
  "https://" ++ cfg.account ++ "." ++ env.baseDomain

/-- `get` (lines 149-173): check the access token, build the absolute
URI, dispatch a GET with the built headers, validate the status against
`DEFAULT_SUCCESS_RESPONSE_CODES`, debug-log, return the response.  No
`try`/`except`: token-check exceptions and transport exceptions
propagate.  `t` is the instant at which `datetime.now(timezone.utc)`
inside the token check evaluates. -/
def get (env : Env) (cfg : Config) (t : Int) (uri : String) (org : Bool)
    (w : World) : Except PyExn Response × World :=
  match check_access_token env t w with
  | (.error e, w') => (.error e, w')
  | (.ok _, w') =>
    match env.send .GET (base_url env cfg ++ uri)
        (get_request_headers env cfg w'.attrs.readTok org) none none with
    | .exn => (.error .transportError, w')
    | .ok r =>
      match check_response_code r env.successCodes with
      | .error e => (.error e, w')
      | .ok _ =>
        match print_debug_logging r with
        | .error e => (.error e, w')
        | .ok _ => (.ok r, w')

/-- `patch` (lines 175-201): like `get` with method PATCH and the given
json data and params forwarded to the dispatch. -/
def patch (env : Env) (cfg : Config) (t : Int) (uri : String) (org : Bool)
    (data param : Option JObj) (w : World) : Except PyExn Response × World :=
  match check_access_token env t w with
  | (.error e, w') => (.error e, w')
  | (.ok _, w') =>
    match env.send .PATCH (base_url env cfg ++ uri)
        (get_request_headers env cfg w'.attrs.readTok org) data param with
    | .exn => (.error .transportError, w')
    | .ok r =>
      match check_response_code r env.successCodes with
      | .error e => (.error e, w')
      | .ok _ =>
        match print_debug_logging r with
        | .error e => (.error e, w')
        | .ok _ => (.ok r, w')

/-- `post` (lines 203-229): like `get` with method POST and the given
json data and params forwarded to the dispatch. -/
def post (env : Env) (cfg : Config) (t : Int) (uri : String) (org : Bool)
    (data param : Option JObj) (w : World) : Except PyExn Response × World :=
  match check_access_token env t w with
  | (.error e, w') => (.error e, w')
  | (.ok _, w') =>
    match env.send .POST (base_url env cfg ++ uri)
        (get_request_headers env cfg w'.attrs.readTok org) data param with
    | .exn => (.error .transportError, w')
    | .ok r =>
      match check_response_code r env.successCodes with
      | .error e => (.error e, w')
      | .ok _ =>
        match print_debug_logging r with
        | .error e => (.error e, w')
        | .ok _ => (.ok r, w')

/-- `put` (lines 231-257): like `get` with method PUT and the given json
data and params forwarded to the dispatch. -/
def put (env : Env) (cfg : Config) (t : Int) (uri : String) (org : Bool)
    (data param : Option JObj) (w : World) : Except PyExn Response × World :=
  match check_access_token env t w with
  | (.error e, w') => (.error e, w')
  | (.ok _, w') =>
    match env.send .PUT (base_url env cfg ++ uri)
        (get_request_headers env cfg w'.attrs.readTok org) data param with
    | .exn => (.error .transportError, w')
    | .ok r =>
      match check_response_code r env.successCodes with
      | .error e => (.error e, w')
      | .ok _ =>
        match print_debug_logging r with
        | .error e => (.error e, w')
        | .ok _ => (.ok r, w')

/-- `delete` (lines 259-283): like `get` with method DELETE. -/
def delete (env : Env) (cfg : Config) (t : Int) (uri : String) (org : Bool)
    (w : World) : Except PyExn Response × World :=
  match check_access_token env t w with
  | (.error e, w') => (.error e, w')
  | (.ok _, w') =>
    match env.send .DELETE (base_url env cfg ++ uri)
        (get_request_headers env cfg w'.attrs.readTok org) none none with
    | .exn => (.error .transportError, w')
    | .ok r =>
      match check_response_code r env.successCodes with
      | .error e => (.error e, w')
      | .ok _ =>
        match print_debug_logging r with
        | .error e => (.error e, w')
        | .ok _ => (.ok r, w')

/-- `__init__` (lines 31-55): stores the immutable fields (carried here in
`Config`), builds the base URL via `base_url`, and eagerly calls
`_check_access_token` on the fresh object state.  Construction returns
the object only when the result is `.ok`; an `.error` means the
constructor raised and no session object exists. -/
def sessionInit (env : Env) (cfg : Config) (t : Int) :
    Except PyExn Unit × World :=
  check_access_token env t World.initial

/-- One verb call described as data, for reasoning about sequences of
calls on one session. -/
structure CallDesc where
  method : Method
  t : Int
  uri : String
  org : Bool
  data : Option JObj
  param : Option JObj

/-- The session-state effect of one verb call (the returned response is
dropped; exceptions leave the object in its current state). -/
def runCall (env : Env) (cfg : Config) (c : CallDesc) (w : World) : World :=
  match c.method with
  | .GET => (get env cfg c.t c.uri c.org w).2
  | .POST => (post env cfg c.t c.uri c.org c.data c.param w).2
  | .PUT => (put env cfg c.t c.uri c.org c.data c.param w).2
  | .PATCH => (patch env cfg c.t c.uri c.org c.data c.param w).2
  | .DELETE => (delete env cfg c.t c.uri c.org w).2

/-- The session-state effect of a sequence of verb calls. -/
def runCalls (env : Env) (cfg : Config) (cs : List CallDesc) (w : World) :
    World :=
  cs.foldl (fun a c => runCall env cfg c a) w

/-- The token/expiry coupling invariant: whenever `self._access_token`
reads as a non-`None` value, `self._access_token_expiry` reads as a
datetime (non-`None`). -/
def TokenInv (w : World) : Prop :=
  w.attrs.readTok ≠ none → w.attrs.readExp ≠ none

/-- The reachable states of one `HttpSession` object: the fresh object
state at the start of `__init__`, the state after the constructor's eager
token check, and closure under the five public verb calls (which leave
the object in their final state whether they return or raise). -/
inductive Reachable : World → Prop where
  | fresh : Reachable World.initial
  | construct (env : Env) (cfg : Config) (t : Int) :
      Reachable (sessionInit env cfg t).2
  | stepGet (env : Env) (cfg : Config) (t : Int) (uri : String) (org : Bool)
      (w : World) : Reachable w → Reachable (get env cfg t uri org w).2
  | stepPost (env : Env) (cfg : Config) (t : Int) (uri : String) (org : Bool)
      (data param : Option JObj) (w : World) :
      Reachable w → Reachable (post env cfg t uri org data param w).2
  | stepPut (env : Env) (cfg : Config) (t : Int) (uri : String) (org : Bool)
      (data param : Option JObj) (w : World) :
      Reachable w → Reachable (put env cfg t uri org data param w).2
  | stepPatch (env : Env) (cfg : Config) (t : Int) (uri : String) (org : Bool)
      (data param : Option JObj) (w : World) :
      Reachable w → Reachable (patch env cfg t uri org data param w).2
  | stepDelete (env : Env) (cfg : Config) (t : Int) (uri : String)
      (org : Bool) (w : World) :
      Reachable w → Reachable (delete env cfg t uri org w).2

/-! Concrete instances used by counterexamples and witnesses. -/

/-- A well-formed auth response: status 201, JSON body with both `token`
and `expiresAt` fields. -/
def rAuthOK : Response :=
  ⟨201, some "application/json", "",
   some [("token", some (.s "t1")), ("expiresAt", some (.s "2024-01-01T00:00:00.000000+00:00"))]⟩

/-- A successful resource response: status 200, JSON body `{"data": []}`
modelled as a flat object with a `data` field. -/
def rResOK : Response :=
  ⟨200, some "application/json", "\x7b\x22data\x22: []\x7d", some [("data", some (.s ""))]⟩

/-- A failing resource response: status 404. -/
def rRes404 : Response := ⟨404, some "text/html", "not found", none⟩

/-- An auth response whose JSON body has a parseable `expiresAt` but no
`token` field. -/
def rAuthNoToken : Response :=
  ⟨201, some "application/json", "",
   some [("expiresAt", some (.s "2024-01-01T00:00:00.000000+00:00"))]⟩

/-- The strptime oracle of the concrete environments: parses exactly the
timestamp string used by `rAuthOK` to the instant 1704067200. -/
def strptimeW (s : String) : Option Int :=
  if s = "2024-01-01T00:00:00.000000+00:00" then some 1704067200 else none

/-- Concrete environment: auth endpoint always answers `rAuthOK`,
resource endpoint always answers `rResOK`, allow-list `[200, 201]`. -/
def envW : Env :=
  ⟨"lacework.net", [200, 201], 3600, "1.0", strptimeW,
   fun _ => .ok rAuthOK, fun _ _ _ _ _ => .ok rResOK⟩

/-- Concrete environment whose resource endpoint answers 404. -/
def envW404 : Env :=
  ⟨"lacework.net", [200, 201], 3600, "1.0", strptimeW,
   fun _ => .ok rAuthOK, fun _ _ _ _ _ => .ok rRes404⟩

/-- Concrete environment whose auth endpoint answers with a body missing
the `token` field. -/
def envWNoToken : Env :=
  ⟨"lacework.net", [200, 201], 3600, "1.0", strptimeW,
   fun _ => .ok rAuthNoToken, fun _ _ _ _ _ => .ok rResOK⟩

/-- Concrete environment whose every HTTP exchange raises a transport
exception. -/
def envWExn : Env :=
  ⟨"lacework.net", [200, 201], 3600, "1.0", strptimeW,
   fun _ => .exn, fun _ _ _ _ _ => .exn⟩

/-- Concrete environment whose auth endpoint answers 401 (invalid
credentials). -/
def rAuth401 : Response := ⟨401, some "application/json", "unauthorized", none⟩

/-- Environment rejecting the credentials at the token endpoint. -/
def envW401 : Env :=
  ⟨"lacework.net", [200, 201], 3600, "1.0", strptimeW,
   fun _ => .ok rAuth401, fun _ _ _ _ _ => .ok rResOK⟩

/-- Concrete configuration with a sub-account. -/
def cfgW : Config := ⟨"acct", some "sub", "key", "secret"⟩

/-- A session state holding a cached token valid until instant 5. -/
def wCached : World := ⟨⟨some (some (.s "tok")), some (some 5)⟩, 0⟩

/-- A session state holding a stale cached token that expired at
instant 1. -/
def wStale : World := ⟨⟨some (some (.s "old")), some (some 1)⟩, 0⟩

/-- A verb call made at instant 6, after `wCached`'s expiry 5. -/
def cExpired : CallDesc := ⟨.GET, 6, "/api/v2/events", false, none, none⟩

/-- A sequence of verb calls all made at instants within `wCached`'s
validity window (at or before expiry 5). -/
def csValid : List CallDesc :=
  [⟨.GET, 3, "/api/v2/events", false, none, none⟩,
   ⟨.POST, 4, "/api/v2/search", true, some [("q", some (.s "x"))], none⟩,
   ⟨.DELETE, 5, "/api/v2/events/1", false, none, none⟩]

/-- A resource response declaring a JSON content type whose body fails to
parse as JSON. -/
def rBadJson : Response := ⟨200, some "application/json", "oops", none⟩

/-- Environment whose resource endpoint answers `rBadJson`. -/
def envWBadJson : Env :=
  ⟨"lacework.net", [200, 201], 3600, "1.0", strptimeW,
   fun _ => .ok rAuthOK, fun _ _ _ _ _ => .ok rBadJson⟩

/-! Helper lemmas shared by the claim theorems. -/

/-- Debug logging never raises: it always returns some list of log
messages. -/
theorem print_debug_logging_ok (r : Response) :
    ∃ msgs, print_debug_logging r = .ok msgs := by
  unfold print_debug_logging
  split
  · cases r.jsonResult <;> exact ⟨_, rfl⟩
  · exact ⟨_, rfl⟩

/-- One token fetch makes exactly one POST to the auth endpoint and does
not itself touch the attribute slots. -/
theorem get_access_token_snd (env : Env) (w : World) :
    (get_access_token env w).2 = { w with authCalls := w.authCalls + 1 } := by
  unfold get_access_token
  repeat' split
  all_goals rfl

/-- When a valid token is cached (token present, expiry not strictly in
the past), the token check is a no-op returning normally. -/
theorem check_access_token_not_expired (env : Env) (t : Int) (w : World)
    (tv : JVal) (e : Int) (htok : w.attrs.readTok = some tv)
    (hexp : w.attrs.readExp = some e) (hlt : ¬ e < t) :
    check_access_token env t w = (.ok (), w) := by
  unfold check_access_token refreshCond
  rw [htok, hexp]
  simp [hlt]

/-- The token check is a no-op on an exception from the refresh
condition (the `TypeError` of comparing `None` with a datetime):
the exception propagates and the state is untouched. -/
theorem check_access_token_cond_error (env : Env) (t : Int) (w : World)
    (e : PyExn)
    (h : refreshCond w.attrs.readTok w.attrs.readExp t = .error e) :
    check_access_token env t w = (.error e, w) := by
  unfold check_access_token
  rw [h]

/-- The token check is a no-op when the refresh condition is false. -/
theorem check_access_token_cond_false (env : Env) (t : Int) (w : World)
    (h : refreshCond w.attrs.readTok w.attrs.readExp t = .ok false) :
    check_access_token env t w = (.ok (), w) := by
  unfold check_access_token
  rw [h]

/-- Shape of the token check when the refresh condition is true: exactly
one POST happens, and the outcome is one of three shapes — an exception
with the attribute slots untouched, the `KeyError` of a missing `token`
field with the expiry slot updated but the token slot untouched, or
success with both slots updated. -/
theorem check_access_token_fetch_shape (env : Env) (t : Int) (w : World)
    (h : refreshCond w.attrs.readTok w.attrs.readExp t = .ok true) :
    (∃ e, check_access_token env t w =
        (.error e, ⟨w.attrs, w.authCalls + 1⟩)) ∨
    (∃ dt, check_access_token env t w =
        (.error .keyError, ⟨⟨w.attrs.tokSlot, some (some dt)⟩, w.authCalls + 1⟩)) ∨
    (∃ tv dt, check_access_token env t w =
        (.ok (), ⟨⟨some tv, some (some dt)⟩, w.authCalls + 1⟩)) := by
  unfold check_access_token
  rw [h]
  have hsnd := get_access_token_snd env w
  rcases hga : get_access_token env w with ⟨res, w'⟩
  rw [hga] at hsnd
  have hw' : w' = ⟨w.attrs, w.authCalls + 1⟩ := hsnd
  subst hw'
  cases res with
  | error e => exact .inl ⟨e, rfl⟩
  | ok r =>
    rcases hj : r.jsonResult with _ | j
    · simp only [hj]
      exact .inl ⟨.valueError, rfl⟩
    · simp only [hj]
      rcases hex : List.lookup "expiresAt" j with _ | v
      · simp only [hex]
        exact .inl ⟨.keyError, rfl⟩
      · simp only [hex]
        rcases hsp : strptimeVal env v with e | dt
        · simp only [hsp]
          exact .inl ⟨e, rfl⟩
        · simp only [hsp]
          rcases htk : List.lookup "token" j with _ | tv
          · simp only [htk]
            exact .inr (.inl ⟨dt, rfl⟩)
          · simp only [htk]
            exact .inr (.inr ⟨tv, dt, rfl⟩)

/-- With no cached token the refresh condition short-circuits to true. -/
theorem refreshCond_none (exp : Option Int) (t : Int) :
    refreshCond none exp t = .ok true := rfl

/-- With a cached token and a cached expiry the refresh condition is the
strict comparison `expiry < now`. -/
theorem refreshCond_some (tv : JVal) (e : Int) (t : Int) :
    refreshCond (some tv) (some e) t = .ok (decide (e < t)) := rfl

/-- The token check makes at most one POST to the auth endpoint. -/
theorem check_access_token_authCalls_le (env : Env) (t : Int) (w : World) :
    (check_access_token env t w).2.authCalls ≤ w.authCalls + 1 := by
  rcases hrc : refreshCond w.attrs.readTok w.attrs.readExp t with e | b
  · rw [check_access_token_cond_error env t w e hrc]
    exact Nat.le_succ _
  · cases b with
    | false =>
      rw [check_access_token_cond_false env t w hrc]
      exact Nat.le_succ _
    | true =>
      rcases check_access_token_fetch_shape env t w hrc with
        ⟨e, he⟩ | ⟨dt, he⟩ | ⟨tv, dt, he⟩ <;> rw [he]

/-- The token check makes exactly one POST when the refresh condition is
true. -/
theorem check_access_token_fetch_authCalls (env : Env) (t : Int) (w : World)
    (h : refreshCond w.attrs.readTok w.attrs.readExp t = .ok true) :
    (check_access_token env t w).2.authCalls = w.authCalls + 1 := by
  rcases check_access_token_fetch_shape env t w h with
    ⟨e, he⟩ | ⟨dt, he⟩ | ⟨tv, dt, he⟩ <;> rw [he]

/-- The state effect of `get` is the state effect of its token check:
the dispatch and validation steps never touch the session state. -/
theorem get_snd (env : Env) (cfg : Config) (t : Int) (uri : String)
    (org : Bool) (w : World) :
    (get env cfg t uri org w).2 = (check_access_token env t w).2 := by
  unfold get
  rcases hc : check_access_token env t w with ⟨res, w'⟩
  cases res with
  | error e => rfl
  | ok u =>
    rcases hs : env.send .GET (base_url env cfg ++ uri)
        (get_request_headers env cfg w'.attrs.readTok org) none none with r | _
    · simp only [hs]
      rcases hcc : check_response_code r env.successCodes with e | u2
      · simp only [hcc]
      · simp only [hcc]
        rcases hp : print_debug_logging r with e | msgs <;> simp only [hp]
    · simp only [hs]

/-- The state effect of `post` is the state effect of its token check. -/
theorem post_snd (env : Env) (cfg : Config) (t : Int) (uri : String)
    (org : Bool) (data param : Option JObj) (w : World) :
    (post env cfg t uri org data param w).2 = (check_access_token env t w).2 := by
  unfold post
  rcases hc : check_access_token env t w with ⟨res, w'⟩
  cases res with
  | error e => rfl
  | ok u =>
    rcases hs : env.send .POST (base_url env cfg ++ uri)
        (get_request_headers env cfg w'.attrs.readTok org) data param with r | _
    · simp only [hs]
      rcases hcc : check_response_code r env.successCodes with e | u2
      · simp only [hcc]
      · simp only [hcc]
        rcases hp : print_debug_logging r with e | msgs <;> simp only [hp]
    · simp only [hs]

/-- The state effect of `put` is the state effect of its token check. -/
theorem put_snd (env : Env) (cfg : Config) (t : Int) (uri : String)
    (org : Bool) (data param : Option JObj) (w : World) :
    (put env cfg t uri org data param w).2 = (check_access_token env t w).2 := by
  unfold put
  rcases hc : check_access_token env t w with ⟨res, w'⟩
  cases res with
  | error e => rfl
  | ok u =>
    rcases hs : env.send .PUT (base_url env cfg ++ uri)
        (get_request_headers env cfg w'.attrs.readTok org) data param with r | _
    · simp only [hs]
      rcases hcc : check_response_code r env.successCodes with e | u2
      · simp only [hcc]
      · simp only [hcc]
        rcases hp : print_debug_logging r with e | msgs <;> simp only [hp]
    · simp only [hs]

/-- The state effect of `patch` is the state effect of its token check. -/
theorem patch_snd (env : Env) (cfg : Config) (t : Int) (uri : String)
    (org : Bool) (data param : Option JObj) (w : World) :
    (patch env cfg t uri org data param w).2 = (check_access_token env t w).2 := by
  unfold patch
  rcases hc : check_access_token env t w with ⟨res, w'⟩
  cases res with
  | error e => rfl
  | ok u =>
    rcases hs : env.send .PATCH (base_url env cfg ++ uri)
        (get_request_headers env cfg w'.attrs.readTok org) data param with r | _
    · simp only [hs]
      rcases hcc : check_response_code r env.successCodes with e | u2
      · simp only [hcc]
      · simp only [hcc]
        rcases hp : print_debug_logging r with e | msgs <;> simp only [hp]
    · simp only [hs]

/-- Result of `get` when the token check is a no-op and a response
arrives: the response is returned when its status is allow-listed and
`ApiError` carrying it is raised otherwise. -/
theorem get_result (env : Env) (cfg : Config) (t : Int) (uri : String)
    (org : Bool) (w : World) (r : Response)
    (hc : check_access_token env t w = (.ok (), w))
    (hs : env.send .GET (base_url env cfg ++ uri)
      (get_request_headers env cfg w.attrs.readTok org) none none = .ok r) :
    get env cfg t uri org w =
      (if r.status_code ∈ env.successCodes then .ok r
       else .error (.apiError r), w) := by
  unfold get
  simp only [hc, hs]
  by_cases hst : r.status_code ∈ env.successCodes
  · obtain ⟨msgs, hm⟩ := print_debug_logging_ok r
    simp [check_response_code, hst, hm]
  · simp [check_response_code, hst]

/-- Result of `post` when the token check is a no-op and a response
arrives. -/
theorem post_result (env : Env) (cfg : Config) (t : Int) (uri : String)
    (org : Bool) (data param : Option JObj) (w : World) (r : Response)
    (hc : check_access_token env t w = (.ok (), w))
    (hs : env.send .POST (base_url env cfg ++ uri)
      (get_request_headers env cfg w.attrs.readTok org) data param = .ok r) :
    post env cfg t uri org data param w =
      (if r.status_code ∈ env.successCodes then .ok r
       else .error (.apiError r), w) := by
  unfold post
  simp only [hc, hs]
  by_cases hst : r.status_code ∈ env.successCodes
  · obtain ⟨msgs, hm⟩ := print_debug_logging_ok r
    simp [check_response_code, hst, hm]
  · simp [check_response_code, hst]

/-- Result of `put` when the token check is a no-op and a response
arrives. -/
theorem put_result (env : Env) (cfg : Config) (t : Int) (uri : String)
    (org : Bool) (data param : Option JObj) (w : World) (r : Response)
    (hc : check_access_token env t w = (.ok (), w))
    (hs : env.send .PUT (base_url env cfg ++ uri)
      (get_request_headers env cfg w.attrs.readTok org) data param = .ok r) :
    put env cfg t uri org data param w =
      (if r.status_code ∈ env.successCodes then .ok r
       else .error (.apiError r), w) := by
  unfold put
  simp only [hc, hs]
  by_cases hst : r.status_code ∈ env.successCodes
  · obtain ⟨msgs, hm⟩ := print_debug_logging_ok r
    simp [check_response_code, hst, hm]
  · simp [check_response_code, hst]

/-- Result of `patch` when the token check is a no-op and a response
arrives. -/
theorem patch_result (env : Env) (cfg : Config) (t : Int) (uri : String)
    (org : Bool) (data param : Option JObj) (w : World) (r : Response)
    (hc : check_access_token env t w = (.ok (), w))
    (hs : env.send .PATCH (base_url env cfg ++ uri)
      (get_request_headers env cfg w.attrs.readTok org) data param = .ok r) :
    patch env cfg t uri org data param w =
      (if r.status_code ∈ env.successCodes then .ok r
       else .error (.apiError r), w) := by
  unfold patch
  simp only [hc, hs]
  by_cases hst : r.status_code ∈ env.successCodes
  · obtain ⟨msgs, hm⟩ := print_debug_logging_ok r
    simp [check_response_code, hst, hm]
  · simp [check_response_code, hst]

/-- Result of `delete` when the token check is a no-op and a response
arrives. -/
theorem delete_result (env : Env) (cfg : Config) (t : Int) (uri : String)
    (org : Bool) (w : World) (r : Response)
    (hc : check_access_token env t w = (.ok (), w))
    (hs : env.send .DELETE (base_url env cfg ++ uri)
      (get_request_headers env cfg w.attrs.readTok org) none none = .ok r) :
    delete env cfg t uri org w =
      (if r.status_code ∈ env.successCodes then .ok r
       else .error (.apiError r), w) := by
  unfold delete
  simp only [hc, hs]
  by_cases hst : r.status_code ∈ env.successCodes
  · obtain ⟨msgs, hm⟩ := print_debug_logging_ok r
    simp [check_response_code, hst, hm]
  · simp [check_response_code, hst]

/-- The state effect of `delete` is the state effect of its token
check. -/
theorem delete_snd (env : Env) (cfg : Config) (t : Int) (uri : String)
    (org : Bool) (w : World) :
    (delete env cfg t uri org w).2 = (check_access_token env t w).2 := by
  unfold delete
  rcases hc : check_access_token env t w with ⟨res, w'⟩
  cases res with
  | error e => rfl
  | ok u =>
    rcases hs : env.send .DELETE (base_url env cfg ++ uri)
        (get_request_headers env cfg w'.attrs.readTok org) none none with r | _
    · simp only [hs]
      rcases hcc : check_response_code r env.successCodes with e | u2
      · simp only [hcc]
      · simp only [hcc]
        rcases hp : print_debug_logging r with e | msgs <;> simp only [hp]
    · simp only [hs]

/-- The state effect of any single verb call is the state effect of its
token check. -/
theorem runCall_snd (env : Env) (cfg : Config) (c : CallDesc) (w : World) :
    runCall env cfg c w = (check_access_token env c.t w).2 := by
  rcases c with ⟨m, t, uri, org, data, param⟩
  cases m with
  | GET => exact get_snd env cfg t uri org w
  | POST => exact post_snd env cfg t uri org data param w
  | PUT => exact put_snd env cfg t uri org data param w
  | PATCH => exact patch_snd env cfg t uri org data param w
  | DELETE => exact delete_snd env cfg t uri org w

/-- A verb call made while the cached token is within its validity window
leaves the session state untouched (in particular no auth fetch). -/
theorem runCall_valid (env : Env) (cfg : Config) (c : CallDesc) (w : World)
    (tv : JVal) (e : Int) (htok : w.attrs.readTok = some tv)
    (hexp : w.attrs.readExp = some e) (hlt : ¬ e < c.t) :
    runCall env cfg c w = w := by
  rw [runCall_snd,
    check_access_token_not_expired env c.t w tv e htok hexp hlt]

/-- A whole sequence of verb calls made while the cached token is within
its validity window leaves the session state untouched. -/
theorem runCalls_valid (env : Env) (cfg : Config) (cs : List CallDesc)
    (w : World) (tv : JVal) (e : Int) (htok : w.attrs.readTok = some tv)
    (hexp : w.attrs.readExp = some e) (hall : ∀ c ∈ cs, ¬ e < c.t) :
    runCalls env cfg cs w = w := by
  induction cs with
  | nil => rfl
  | cons c cs ih =>
    have hstep : runCalls env cfg (c :: cs) w =
        runCalls env cfg cs (runCall env cfg c w) := rfl
    rw [hstep, runCall_valid env cfg c w tv e htok hexp (hall c (by simp))]
    exact ih (fun d hd => hall d (List.mem_cons_of_mem c hd))

/-- The fresh object state satisfies the token/expiry coupling
invariant. -/
theorem tokenInv_initial : TokenInv World.initial :=
  fun h => absurd rfl h

/-- The token check preserves the token/expiry coupling invariant, in
every outcome including the partial update of a failed renewal. -/
theorem check_access_token_tokenInv (env : Env) (t : Int) (w : World)
    (h : TokenInv w) : TokenInv (check_access_token env t w).2 := by
  rcases hrc : refreshCond w.attrs.readTok w.attrs.readExp t with e | b
  · rw [check_access_token_cond_error env t w e hrc]
    exact h
  · cases b with
    | false =>
      rw [check_access_token_cond_false env t w hrc]
      exact h
    | true =>
      rcases check_access_token_fetch_shape env t w hrc with
        ⟨e, he⟩ | ⟨dt, he⟩ | ⟨tv, dt, he⟩
      · rw [he]
        exact h
      · rw [he]
        intro _
        simp [Attrs.readExp, Attrs.readExpIn]
      · rw [he]
        intro _
        simp [Attrs.readExp, Attrs.readExpIn]

/-- Under the coupling invariant the refresh condition always evaluates
to a boolean: the comparison never sees `None` on its left. -/
theorem refreshCond_total (w : World) (h : TokenInv w) (t : Int) :
    ∃ b, refreshCond w.attrs.readTok w.attrs.readExp t = .ok b := by
  unfold refreshCond
  by_cases htok : w.attrs.readTok = none
  · simp [htok]
  · have hexp := h htok
    rcases hx : w.attrs.readExp with _ | e
    · exact absurd hx hexp
    · simp only [htok, if_neg htok, hx]
      exact ⟨_, rfl⟩

/-! The claim theorems. -/

/-- C1: for every public verb call (get, post, put, patch, delete) and
every configured success allow-list (the `successCodes` of the
environment, since `DEFAULT_SUCCESS_RESPONSE_CODES` is an abstract
configuration constant): when the dispatched request's response has a
status code in the allow-list, the verb returns that response normally;
when the status code is not in the allow-list, the verb raises `ApiError`
carrying the full response.  Stated for a call whose token check is a
no-op (token cached and not expired), isolating the resource exchange the
claim is about. -/
theorem claim_C1_verb_status_allowlist (env : Env) (cfg : Config) (t : Int)
    (uri : String) (org : Bool) (data param : Option JObj) (w : World)
    (tv : JVal) (e : Int) (r : Response)
    (htok : w.attrs.readTok = some tv) (hexp : w.attrs.readExp = some e)
    (hlt : ¬ e < t)
    (hsend : ∀ m u hd d p, env.send m u hd d p = .ok r) :
    (r.status_code ∈ env.successCodes →
      get env cfg t uri org w = (.ok r, w) ∧
      post env cfg t uri org data param w = (.ok r, w) ∧
      put env cfg t uri org data param w = (.ok r, w) ∧
      patch env cfg t uri org data param w = (.ok r, w) ∧
      delete env cfg t uri org w = (.ok r, w)) ∧
    (r.status_code ∉ env.successCodes →
      get env cfg t uri org w = (.error (.apiError r), w) ∧
      post env cfg t uri org data param w = (.error (.apiError r), w) ∧
      put env cfg t uri org data param w = (.error (.apiError r), w) ∧
      patch env cfg t uri org data param w = (.error (.apiError r), w) ∧
      delete env cfg t uri org w = (.error (.apiError r), w)) := by
  have hc := check_access_token_not_expired env t w tv e htok hexp hlt
  constructor
  · intro hst
    refine ⟨?_, ?_, ?_, ?_, ?_⟩
    · rw [get_result env cfg t uri org w r hc (hsend _ _ _ _ _)]
      simp [hst]
    · rw [post_result env cfg t uri org data param w r hc (hsend _ _ _ _ _)]
      simp [hst]
    · rw [put_result env cfg t uri org data param w r hc (hsend _ _ _ _ _)]
      simp [hst]
    · rw [patch_result env cfg t uri org data param w r hc (hsend _ _ _ _ _)]
      simp [hst]
    · rw [delete_result env cfg t uri org w r hc (hsend _ _ _ _ _)]
      simp [hst]
  · intro hst
    refine ⟨?_, ?_, ?_, ?_, ?_⟩
    · rw [get_result env cfg t uri org w r hc (hsend _ _ _ _ _)]
      simp [hst]
    · rw [post_result env cfg t uri org data param w r hc (hsend _ _ _ _ _)]
      simp [hst]
    · rw [put_result env cfg t uri org data param w r hc (hsend _ _ _ _ _)]
      simp [hst]
    · rw [patch_result env cfg t uri org data param w r hc (hsend _ _ _ _ _)]
      simp [hst]
    · rw [delete_result env cfg t uri org w r hc (hsend _ _ _ _ _)]
      simp [hst]

/-- Witness for C1: with a cached valid token, a 200 response is
returned normally by `get` and `delete`, and a 404 response makes `get`
raise `ApiError` carrying it. -/
theorem claim_C1_verb_status_allowlist_witness :
    rResOK.status_code ∈ envW.successCodes ∧
    get envW cfgW 0 "/api/v2/events" false wCached = (.ok rResOK, wCached) ∧
    delete envW cfgW 0 "/api/v2/events" true wCached = (.ok rResOK, wCached) ∧
    rRes404.status_code ∉ envW404.successCodes ∧
    get envW404 cfgW 0 "/api/v2/events" false wCached =
      (.error (.apiError rRes404), wCached) := by
  have h1 := claim_C1_verb_status_allowlist envW cfgW 0 "/api/v2/events"
    false none none wCached (.s "tok") 5 rResOK rfl rfl (by decide)
    (fun _ _ _ _ _ => rfl)
  have h2 := claim_C1_verb_status_allowlist envW404 cfgW 0 "/api/v2/events"
    false none none wCached (.s "tok") 5 rRes404 rfl rfl (by decide)
    (fun _ _ _ _ _ => rfl)
  have hin : rResOK.status_code ∈ envW.successCodes := by decide
  have hout : rRes404.status_code ∉ envW404.successCodes := by decide
  exact ⟨hin, (h1.1 hin).1, (h1.1 hin).2.2.2.2, hout, (h2.2 hout).1⟩

/-- C2 failing-input evaluation: when the POST inside
`_get_access_token` raises a transport exception, the local `response`
is unbound, so the except clause's `raise ApiError(response)` itself
raises `UnboundLocalError` (a `NameError`) — not `ApiError` — refuting
the claim that no other exception type escapes.  When a response did
arrive with a disallowed status, `ApiError` carrying it is raised, and
in both cases exactly one POST is made (no retry). -/
theorem claim_C2_transport_failure_raises_name_error :
    get_access_token envWExn World.initial =
      (.error .nameError, ⟨⟨none, none⟩, 1⟩) ∧
    get_access_token envW401 World.initial =
      (.error (.apiError rAuth401), ⟨⟨none, none⟩, 1⟩) := by
  decide

/-- C3 counterexample: at the boundary instant where now equals the
cached expiry (both 5 here), the claim says a fetch is performed, but
the code's condition is the strict `self._access_token_expiry < now`, so
the check returns with the session state untouched — no auth POST is
made (the call counter would have advanced had one been made). -/
theorem claim_C3_boundary_counterexample :
    wCached.attrs.readTok = some (.s "tok") ∧
    wCached.attrs.readExp = some 5 ∧
    (5 : Int) ≥ 5 ∧
    check_access_token envW 5 wCached = (.ok (), wCached) := by
  decide

/-- C3 amended: the token-refresh check performs a token-fetch call if
and only if no token is cached or the current UTC time is strictly
greater than the cached expiry; at the boundary instant where now equals
the cached expiry, no fetch is performed. -/
theorem claim_C3_fetch_iff_strictly_expired (env : Env) (t : Int)
    (w : World) :
    (w.attrs.readTok = none →
      (check_access_token env t w).2.authCalls = w.authCalls + 1) ∧
    (∀ tv e, w.attrs.readTok = some tv → w.attrs.readExp = some e →
      (check_access_token env t w).2.authCalls =
        (if e < t then w.authCalls + 1 else w.authCalls)) := by
  constructor
  · intro h
    apply check_access_token_fetch_authCalls
    rw [h]
    rfl
  · intro tv e htok hexp
    by_cases hlt : e < t
    · rw [if_pos hlt]
      apply check_access_token_fetch_authCalls
      rw [htok, hexp, refreshCond_some]
      simp [hlt]
    · rw [if_neg hlt,
        check_access_token_not_expired env t w tv e htok hexp hlt]

/-- Witness for the amended C3: a fresh session with no token fetches,
and a session whose token expired at 5 fetches when checked at 6. -/
theorem claim_C3_fetch_iff_strictly_expired_witness :
    (check_access_token envW 0 World.initial).2.authCalls =
      World.initial.authCalls + 1 ∧
    (check_access_token envW 6 wCached).2.authCalls =
      (if (5 : Int) < 6 then wCached.authCalls + 1 else wCached.authCalls) :=
  ⟨(claim_C3_fetch_iff_strictly_expired envW 0 World.initial).1 rfl,
   (claim_C3_fetch_iff_strictly_expired envW 6 wCached).2 (.s "tok") 5 rfl rfl⟩

/-- C4 counterexample: renewal is not wholesale.  With a stale cached
token and an auth response whose JSON parses and has a parseable
`expiresAt` but no `token` field, the check raises `KeyError` after the
first assignment: the expiry slot holds the new value while the token
slot still holds the previous token — a reachable execution where the
expiry is updated and the token string is stale. -/
theorem claim_C4_partial_update_counterexample :
    check_access_token envWNoToken 50 wStale =
      (.error .keyError,
       ⟨⟨some (some (.s "old")), some (some 1704067200)⟩, 1⟩) ∧
    (check_access_token envWNoToken 50 wStale).2.attrs.tokSlot =
      wStale.attrs.tokSlot ∧
    (check_access_token envWNoToken 50 wStale).2.attrs.expSlot ≠
      wStale.attrs.expSlot := by
  decide

/-- C4 amended: after any renewal attempt the attribute slots are in one
of exactly three shapes — both unchanged (any failure up to and
including the `expiresAt` parse, or no renewal at all), both updated
(successful renewal), or, when `expiresAt` parses but the `token` field
is missing from the response, the expiry updated with the token slot
unchanged, the attempt raising `KeyError` (the two assignments are
sequential, not atomic). -/
theorem claim_C4_update_trichotomy (env : Env) (t : Int) (w : World) :
    ((check_access_token env t w).2.attrs = w.attrs) ∨
    (∃ tv dt, (check_access_token env t w).1 = .ok () ∧
      (check_access_token env t w).2.attrs = ⟨some tv, some (some dt)⟩) ∨
    (∃ dt, (check_access_token env t w).1 = .error .keyError ∧
      (check_access_token env t w).2.attrs =
        ⟨w.attrs.tokSlot, some (some dt)⟩) := by
  rcases hrc : refreshCond w.attrs.readTok w.attrs.readExp t with e | b
  · rw [check_access_token_cond_error env t w e hrc]
    exact .inl rfl
  · cases b with
    | false =>
      rw [check_access_token_cond_false env t w hrc]
      exact .inl rfl
    | true =>
      rcases check_access_token_fetch_shape env t w hrc with
        ⟨e, he⟩ | ⟨dt, he⟩ | ⟨tv, dt, he⟩
      · rw [he]
        exact .inl rfl
      · rw [he]
        exact .inr (.inr ⟨dt, rfl, rfl⟩)
      · rw [he]
        exact .inr (.inl ⟨tv, dt, rfl, rfl⟩)

/-- C5: each verb call triggers at most one auth fetch; a call made
while the cached token is within its validity window (now at or before
the cached expiry) leaves the session state untouched, so any sequence
of such calls triggers no auth fetch at all; and a call made when the
cached expiry is strictly in the past triggers exactly one new auth
fetch. -/
theorem claim_C5_auth_fetch_discipline (env : Env) (cfg : Config)
    (c : CallDesc) (cs : List CallDesc) (w : World) (tv : JVal) (e : Int) :
    ((runCall env cfg c w).authCalls ≤ w.authCalls + 1) ∧
    (w.attrs.readTok = some tv → w.attrs.readExp = some e → ¬ e < c.t →
      runCall env cfg c w = w) ∧
    (w.attrs.readTok = some tv → w.attrs.readExp = some e →
      (∀ d ∈ cs, ¬ e < d.t) → runCalls env cfg cs w = w) ∧
    (w.attrs.readTok = some tv → w.attrs.readExp = some e → e < c.t →
      (runCall env cfg c w).authCalls = w.authCalls + 1) := by
  refine ⟨?_, ?_, ?_, ?_⟩
  · rw [runCall_snd]
    exact check_access_token_authCalls_le env c.t w
  · exact runCall_valid env cfg c w tv e
  · exact runCalls_valid env cfg cs w tv e
  · intro htok hexp hlt
    rw [runCall_snd]
    apply check_access_token_fetch_authCalls
    rw [htok, hexp, refreshCond_some]
    simp [hlt]

/-- Witness for C5: three in-window calls leave the cached state
untouched (zero auth fetches), and one call after expiry makes exactly
one auth fetch. -/
theorem claim_C5_auth_fetch_discipline_witness :
    runCalls envW cfgW csValid wCached = wCached ∧
    (runCall envW cfgW cExpired wCached).authCalls =
      wCached.authCalls + 1 := by
  have h := claim_C5_auth_fetch_discipline envW cfgW cExpired csValid
    wCached (.s "tok") 5
  exact ⟨h.2.2.1 rfl rfl (by decide), h.2.2.2 rfl rfl (by decide)⟩

/-- C6: the built request headers carry `Authorization` bound to the
cached token, `Org-Access` bound to the string `"true"` when the org
flag is true and `"false"` when it is false (the Python default), a
`User-Agent` client identifier, and `Account-Name` bound to the
sub-account exactly when one is configured (a non-`None`, non-empty
sub-account — `if self._subaccount:` is Python truthiness), absent when
none is configured. -/
theorem claim_C6_request_headers (env : Env) (cfg : Config)
    (tok : Option JVal) (org : Bool) :
    List.lookup "Authorization" (get_request_headers env cfg tok org) =
      some tok ∧
    List.lookup "Org-Access" (get_request_headers env cfg tok org) =
      some (some (.s (if org then "true" else "false"))) ∧
    List.lookup "User-Agent" (get_request_headers env cfg tok org) =
      some (some (.s ("laceworksdk-python-client/" ++ env.version))) ∧
    (∀ s, cfg.subaccount = some s → s ≠ "" →
      List.lookup "Account-Name" (get_request_headers env cfg tok org) =
        some (some (.s s))) ∧
    (cfg.subaccount = none →
      List.lookup "Account-Name" (get_request_headers env cfg tok org) =
        none) := by
  unfold get_request_headers userAgent
  rcases hs : cfg.subaccount with _ | s
  · refine ⟨rfl, rfl, rfl, ?_, fun _ => rfl⟩
    intro s hvs
    exact absurd hvs (by simp)
  · by_cases hne : s = ""
    · subst hne
      refine ⟨rfl, rfl, rfl, ?_, ?_⟩
      · intro s' hvs hne'
        cases hvs
        exact absurd rfl hne'
      · intro hnone
        cases hnone
    · simp only [if_neg hne]
      refine ⟨rfl, rfl, rfl, ?_, ?_⟩
      · intro s' hvs _
        cases hvs
        rfl
      · intro hnone
        cases hnone

/-- Witness for C6: concrete headers with a configured sub-account and
the org flag set. -/
theorem claim_C6_request_headers_witness :
    List.lookup "Authorization"
      (get_request_headers envW cfgW (some (.s "tok")) true) =
      some (some (.s "tok")) ∧
    List.lookup "Org-Access"
      (get_request_headers envW cfgW (some (.s "tok")) true) =
      some (some (.s (if true then "true" else "false"))) ∧
    List.lookup "Account-Name"
      (get_request_headers envW cfgW (some (.s "tok")) true) =
      some (some (.s "sub")) := by
  have h := claim_C6_request_headers envW cfgW (some (.s "tok")) true
  exact ⟨h.1, h.2.1, h.2.2.2.1 "sub" rfl (by decide)⟩

/-- C7: the constructor builds the base URL exactly as
`https://{account}.{base_domain}` and eagerly performs a token fetch
(exactly one POST to the auth endpoint during construction); when the
auth endpoint answers with a status outside the allow-list — invalid
credentials — the constructor raises `ApiError` carrying that response
instead of returning a session object. -/
theorem claim_C7_constructor_eager_fetch (env : Env) (cfg : Config)
    (t : Int) (r : Response) :
    base_url env cfg = "https://" ++ cfg.account ++ "." ++ env.baseDomain ∧
    (sessionInit env cfg t).2.authCalls = 1 ∧
    (env.authResp 0 = .ok r → r.status_code ∉ env.successCodes →
      (sessionInit env cfg t).1 = .error (.apiError r)) := by
  refine ⟨rfl, ?_, ?_⟩
  · exact check_access_token_fetch_authCalls env t World.initial rfl
  · intro hr hst
    have hga : get_access_token env World.initial =
        (.error (.apiError r), ⟨⟨none, none⟩, 1⟩) := by
      have hr0 : env.authResp World.initial.authCalls = .ok r := hr
      unfold get_access_token
      simp only [hr0]
      simp [check_response_code, hst]
      exact ⟨rfl, rfl⟩
    have h1 : refreshCond World.initial.attrs.readTok
        World.initial.attrs.readExp t = .ok true := rfl
    unfold sessionInit check_access_token
    simp only [h1, hga]

/-- Witness for C7: construction against an auth endpoint answering 401
raises `ApiError` carrying that response, after exactly one POST, with
the expected base URL. -/
theorem claim_C7_constructor_eager_fetch_witness :
    base_url envW401 cfgW = "https://acct.lacework.net" ∧
    (sessionInit envW401 cfgW 0).2.authCalls = 1 ∧
    (sessionInit envW401 cfgW 0).1 = .error (.apiError rAuth401) := by
  have h := claim_C7_constructor_eager_fetch envW401 cfgW 0 rAuth401
  exact ⟨by decide, h.2.1, h.2.2 rfl (by decide)⟩

/-- C8: for a response whose content type indicates JSON but whose body
fails to parse, the debug-logging step logs the parse warning and does
not raise; the enclosing verb returns such a response exactly as it
returns one whose body parsed (same control flow, the response returned
as-is, the session state untouched). -/
theorem claim_C8_debug_log_parse_failure (r : Response) (j : JObj)
    (hct : containsSub "application/json"
      (lowerStr (r.contentType.getD "")) = true)
    (hjs : r.jsonResult = none) :
    print_debug_logging r = .ok [.warnParse] ∧
    print_debug_logging { r with jsonResult := some j } =
      .ok [.debugJson j] ∧
    (∀ env cfg t uri org w tv e,
      w.attrs.readTok = some tv → w.attrs.readExp = some e → ¬ e < t →
      r.status_code ∈ env.successCodes →
      (∀ m u hd d p, env.send m u hd d p = .ok r) →
      get env cfg t uri org w = (.ok r, w)) ∧
    (∀ env cfg t uri org w tv e,
      w.attrs.readTok = some tv → w.attrs.readExp = some e → ¬ e < t →
      r.status_code ∈ env.successCodes →
      (∀ m u hd d p,
        env.send m u hd d p = .ok { r with jsonResult := some j }) →
      get env cfg t uri org w = (.ok { r with jsonResult := some j }, w)) := by
  refine ⟨?_, ?_, ?_, ?_⟩
  · simp [print_debug_logging, hct, hjs]
  · simp [print_debug_logging, hct]
  · intro env cfg t uri org w tv e htok hexp hlt hst hsend
    have hc := check_access_token_not_expired env t w tv e htok hexp hlt
    rw [get_result env cfg t uri org w r hc (hsend _ _ _ _ _)]
    simp [hst]
  · intro env cfg t uri org w tv e htok hexp hlt hst hsend
    have hc := check_access_token_not_expired env t w tv e htok hexp hlt
    rw [get_result env cfg t uri org w { r with jsonResult := some j } hc
      (hsend _ _ _ _ _)]
    simp [hst]

/-- Witness for C8: a 200 response declaring JSON whose body fails to
parse is logged as the parse warning and returned normally by `get`. -/
theorem claim_C8_debug_log_parse_failure_witness :
    print_debug_logging rBadJson = .ok [.warnParse] ∧
    get envWBadJson cfgW 0 "/api/v2/events" false wCached =
      (.ok rBadJson, wCached) := by
  have h := claim_C8_debug_log_parse_failure rBadJson [] (by decide) rfl
  exact ⟨h.1,
    h.2.2.1 envWBadJson cfgW 0 "/api/v2/events" false wCached (.s "tok") 5
      rfl rfl (by decide) (by decide) (fun _ _ _ _ _ => rfl)⟩

/-- C9 counterexample: no cross-instance bleed occurs.  After one
instance's construction stored a refreshed token `"t1"` and its expiry
(in that instance's attribute slots), a second, independently
constructed instance starts with empty instance slots, and its attribute
reads fall back to the class attributes, which no code ever assigns and
which therefore still hold the declared defaults `None`, `None` — not
the first instance's values. -/
theorem claim_C9_no_cross_instance_bleed_counterexample :
    (sessionInit envW cfgW 0).2.attrs.readTok = some (.s "t1") ∧
    (sessionInit envW cfgW 0).2.attrs.readExp = some 1704067200 ∧
    Attrs.readTokIn classDefaults World.initial.attrs = none ∧
    Attrs.readExpIn classDefaults World.initial.attrs = none ∧
    Attrs.readTokIn classDefaults World.initial.attrs ≠
      (sessionInit envW cfgW 0).2.attrs.readTok := by
  decide

/-- C9 amended: the token and expiry are declared as class-level
defaults (`None`), but every assignment in the module targets `self`,
creating instance attributes, so refreshed values are instance-owned: a
second, independently constructed instance reads the class defaults
(`None`) rather than the first instance's values, and therefore performs
its own token fetch during construction. -/
theorem claim_C9_instance_owned_token_state (env : Env) (cfg : Config)
    (t : Int) :
    Attrs.readTokIn classDefaults World.initial.attrs = none ∧
    Attrs.readExpIn classDefaults World.initial.attrs = none ∧
    (sessionInit env cfg t).2.authCalls = 1 :=
  ⟨rfl, rfl, check_access_token_fetch_authCalls env t World.initial rfl⟩

/-- C10: in every reachable state of a session, if the access token
reads as non-`None` then the expiry reads as a datetime (non-`None`),
and consequently the refresh condition always evaluates to a boolean:
the comparison `self._access_token_expiry < now` never evaluates `None`
against a datetime. -/
theorem claim_C10_expiry_check_total (w : World) (hw : Reachable w) :
    TokenInv w ∧
    ∀ t, ∃ b, refreshCond w.attrs.readTok w.attrs.readExp t = .ok b := by
  have hinv : TokenInv w := by
    induction hw with
    | fresh => exact tokenInv_initial
    | construct env cfg t =>
      exact check_access_token_tokenInv env t World.initial tokenInv_initial
    | stepGet env cfg t uri org w hw ih =>
      rw [get_snd]
      exact check_access_token_tokenInv env t w ih
    | stepPost env cfg t uri org data param w hw ih =>
      rw [post_snd]
      exact check_access_token_tokenInv env t w ih
    | stepPut env cfg t uri org data param w hw ih =>
      rw [put_snd]
      exact check_access_token_tokenInv env t w ih
    | stepPatch env cfg t uri org data param w hw ih =>
      rw [patch_snd]
      exact check_access_token_tokenInv env t w ih
    | stepDelete env cfg t uri org w hw ih =>
      rw [delete_snd]
      exact check_access_token_tokenInv env t w ih
  exact ⟨hinv, refreshCond_total w hinv⟩

/-- Witness for C10: the fresh session state is reachable, satisfies the
invariant, and its refresh condition at instant 0 evaluates to a
boolean. -/
theorem claim_C10_expiry_check_total_witness :
    TokenInv World.initial ∧
    ∃ b, refreshCond World.initial.attrs.readTok
      World.initial.attrs.readExp 0 = .ok b :=
  ⟨(claim_C10_expiry_check_total World.initial .fresh).1,
   (claim_C10_expiry_check_total World.initial .fresh).2 0⟩

end LaceworkSDK
